import Mathlib

/-!
Shallow embedding of `src/main.py`, an HTTP façade over the AKShare
market-data provider: market clock (`is_holiday`, `is_trading_time`),
the two TTL caches and their cached fetchers (`fetch_realtime`,
`fetch_daily`), and the endpoint handlers (`get_stock_quote`,
`get_daily_quote`, `readiness_check`).

Modelling conventions: Python floats are rationals; a numeric upstream
cell is `some q` when `float(cell)` succeeds and `none` when it raises;
an upstream call either returns its rows or raises; the TTL caches are
explicit key/value/insert-time maps threaded through the handlers, and
each handler additionally reports whether the wrapped upstream call was
actually executed.  Capacity eviction (`maxsize`) is not modelled.
-/

namespace AkApi

/-- One decimal digit character, as produced by zero-padded `strftime` fields. -/
def digitChar (n : Nat) : Char := Char.ofNat (48 + n)

/-- `strftime("%Y%m%d")` for a four-digit-year calendar date:
zero-padded year, month and day fields. -/
def fmtYMD (y m d : Nat) : String :=
  ⟨[digitChar (y / 1000 % 10), digitChar (y / 100 % 10),
    digitChar (y / 10 % 10), digitChar (y % 10),
    digitChar (m / 10 % 10), digitChar (m % 10),
    digitChar (d / 10 % 10), digitChar (d % 10)]⟩

/-- `s.length == 8 && all digits`: the normal form the spec asserts
for trade dates. -/
def digits8 (s : String) : Bool := s.length == 8 && s.data.all Char.isDigit

/-- The current server instant, as read by `datetime.now()`:
calendar date, weekday (Monday = 0), time of day in seconds, plus the
epoch value used as the TTL-cache timer. -/
structure Now where
  year : Nat
  month : Nat
  day : Nat
  weekday : Fin 7
  timeSec : Nat
  epoch : Nat
  deriving DecidableEq

/-- `now.strftime("%Y%m%d")`. -/
def dateStr (now : Now) : String := fmtYMD now.year now.month now.day

/-- The fixed holiday list inside `is_holiday`. -/
def holidays : List String :=
  ["20250101", "20250102",
   "20250210", "20250211", "20250212", "20250213", "20250214",
   "20250404", "20250405", "20250406",
   "20250501", "20250502", "20250503",
   "20250608", "20250609", "20250610",
   "20250915", "20250916", "20250917",
   "20251001", "20251002", "20251003", "20251004", "20251005", "20251006", "20251007"]

/-- `is_holiday(date_str)`. -/
def is_holiday (date_str : String) : Bool := holidays.contains date_str

/-- `is_trading_time()`, as a pure function of the current instant. -/
def is_trading_time (now : Now) : Bool × String :=
  if is_holiday (dateStr now) then (false, "节假日休市")
  else if 5 ≤ (now.weekday : Nat) then (false, "周末休市")
  else if (9 * 3600 + 30 * 60 ≤ now.timeSec ∧ now.timeSec ≤ 11 * 3600 + 30 * 60) ∨
      (13 * 3600 ≤ now.timeSec ∧ now.timeSec ≤ 15 * 3600) then (true, "交易时间内")
  else (false, "非交易时间")

/-- A row of the real-time full-market snapshot (`ak.stock_zh_a_spot_em()`),
restricted to the columns the handler reads. -/
structure RTRow where
  code : String
  latest : Option Rat
  preClose : Option Rat
  high : Option Rat
  low : Option Rat
  volume : Option Rat
  amount : Option Rat
  deriving DecidableEq

/-- The upstream date cell of a daily-history row (`row["日期"]`):
a `pd.Timestamp` carrying a calendar date, a text date, or a value of
any other type. -/
inductive UpDate where
  | ts (y m d : Nat)
  | str (s : String)
  | other
  deriving DecidableEq

/-- A row of the daily history (`ak.stock_zh_a_hist`), restricted to the
columns the handler reads. -/
structure DRow where
  date : UpDate
  close : Option Rat
  changePct : Option Rat
  deriving DecidableEq

/-- Outcome of the real-time upstream call: it raises, or returns the
full-market snapshot rows. -/
inductive UpstreamRT where
  | raises (msg : String)
  | rows (rs : List RTRow)
  deriving DecidableEq

/-- Outcome of the daily-history upstream call for the requested code. -/
inductive UpstreamD where
  | raises (msg : String)
  | hist (rs : List DRow)
  deriving DecidableEq

/-- `symbol.split(".")[0]`: the bare code before the exchange suffix. -/
def bare (symbol : String) : String := ⟨symbol.data.takeWhile (fun c => c != '.')⟩

/-- State of a `cachetools.TTLCache`: key, cached value (`none` records a
cached Python `None`), and insertion time.  At most one live entry per key. -/
abbrev CacheMap (α : Type) := List (String × Option α × Nat)

def lookupC {α : Type} (c : CacheMap α) (k : String) : Option (Option α × Nat) :=
  (c.find? (fun e => e.1 == k)).map (fun e => e.2)

def cacheInsert {α : Type} (c : CacheMap α) (k : String) (v : Option α) (t : Nat) :
    CacheMap α :=
  (k, v, t) :: c.filter (fun e => !(e.1 == k))

/-- `@cached(TTLCache(ttl))` get-or-compute: a live (unexpired) entry is
returned as is; otherwise the wrapped function's result is stored and
returned.  The flag records whether the wrapped function was called. -/
def cachedFetch {α : Type} (ttl : Nat) (c : CacheMap α) (now : Nat) (key : String)
    (compute : Option α) : Option α × CacheMap α × Bool :=
  match lookupC c key with
  | some (v, t) =>
    if now < t + ttl then (v, c, false)
    else (compute, cacheInsert c key compute now, true)
  | none => (compute, cacheInsert c key compute now, true)

/-- Body of `fetch_realtime`: filter the snapshot to the rows whose `代码`
equals the bare code and take the first (`row.iloc[0] if not row.empty
else None`); any upstream exception is caught and becomes `None`. -/
def realtimeCompute (up : UpstreamRT) (symbol : String) : Option RTRow :=
  match up with
  | .raises _ => none
  | .rows rs => (rs.filter (fun r => r.code == bare symbol)).head?

/-- `fetch_realtime`, cached in `realtime_cache` (TTL 60 s) under its raw
`symbol` argument. -/
def fetch_realtime (c : CacheMap RTRow) (now : Nat) (symbol : String) (up : UpstreamRT) :
    Option RTRow × CacheMap RTRow × Bool :=
  cachedFetch 60 c now symbol (realtimeCompute up symbol)

/-- Body of `fetch_daily`: `df.iloc[-1] if not df.empty else None`;
any upstream exception is caught and becomes `None`. -/
def dailyCompute (up : UpstreamD) : Option DRow :=
  match up with
  | .raises _ => none
  | .hist rs => rs.getLast?

/-- `fetch_daily`, cached in `daily_cache` (TTL 3600 s) under its raw
`symbol` argument. -/
def fetch_daily (c : CacheMap DRow) (now : Nat) (symbol : String) (up : UpstreamD) :
    Option DRow × CacheMap DRow × Bool :=
  cachedFetch 3600 c now symbol (dailyCompute up)

/-- Python `round(x, n)` rounds half to even; integer rounding step. -/
def roundHalfEven (q : Rat) : Int :=
  let f := ⌊q⌋
  let r := q - (f : Rat)
  if r < 1 / 2 then f
  else if 1 / 2 < r then f + 1
  else if f % 2 = 0 then f else f + 1

/-- Python `round(x, 2)`. -/
def round2 (q : Rat) : Rat := (roundHalfEven (q * 100) : Int) / 100

/-- The `StockQuote` response model. -/
structure StockQuote where
  symbol : String
  price : Rat
  currency : String
  change_percent : Rat
  trade_date : String
  day_high : Rat
  day_low : Rat
  volume : Rat
  amount : Rat
  warning : Option String
  deriving DecidableEq

/-- The `DailyQuote` response model. -/
structure DailyQuote where
  symbol : String
  close : Rat
  change_pct : Rat
  trade_date : String
  deriving DecidableEq

/-- Outcome of a `/get_stock_quote` request (HTTP 403 / 404 / 500 / 200). -/
inductive RTResp where
  | forbidden
  | notFound
  | parseError
  | ok (q : StockQuote)
  deriving DecidableEq

/-- Outcome of a `/get_daily_quote` request (HTTP 403 / 404 / 500 / 200). -/
inductive DResp where
  | forbidden
  | notFound
  | parseError
  | ok (q : DailyQuote)
  deriving DecidableEq

/-- Outcome of a `/ready` request: HTTP 503 with a reason, or 200. -/
inductive ReadyResp where
  | unavailable (reason : String)
  | ready (timestamp : String)
  deriving DecidableEq

/-- The `/get_stock_quote` handler.  Arguments: presented scheme and
token, the configured `BEARER_TOKEN`, the `symbol` query parameter, the
current `realtime_cache` state, the current instant, and the upstream
outcome.  Returns the response, the new cache state, and whether the
upstream call was executed. -/
def get_stock_quote (scheme token bearer symbol : String) (cache : CacheMap RTRow)
    (now : Now) (up : UpstreamRT) : RTResp × CacheMap RTRow × Bool :=
  if scheme ≠ "Bearer" ∨ token ≠ bearer then (.forbidden, cache, false)
  else
    let tr := is_trading_time now
    let fr := fetch_realtime cache now.epoch symbol up
    match fr.1 with
    | none => (.notFound, fr.2.1, fr.2.2)
    | some row =>
      match row.latest, row.preClose, row.high, row.low, row.volume, row.amount with
      | some price, some preClose, some high, some low, some vol, some amt =>
        (.ok { symbol := symbol
               price := price
               currency := "CNY"
               change_percent :=
                 round2 (if preClose ≠ 0 then (price - preClose) / preClose * 100 else 0)
               trade_date := dateStr now
               day_high := high
               day_low := low
               volume := vol / 100
               amount := amt / 1000
               warning := if tr.1 then none else some tr.2 }, fr.2.1, fr.2.2)
      | _, _, _, _, _, _ => (.parseError, fr.2.1, fr.2.2)

/-- Trade-date handling in `get_daily_quote`: a `pd.Timestamp` is
formatted `"%Y%m%d"`; a string has its `"-"` occurrences removed and is
cut to its first 8 characters; anything else falls back to
`datetime.now().strftime("%Y%m%d")`. -/
def normTradeDate (v : UpDate) (now : Now) : String :=
  match v with
  | .ts y m d => fmtYMD y m d
  | .str s => ⟨(s.data.filter (fun c => c != '-')).take 8⟩
  | .other => dateStr now

/-- The `/get_daily_quote` handler, with the same calling convention as
`get_stock_quote`. -/
def get_daily_quote (scheme token bearer symbol : String) (cache : CacheMap DRow)
    (now : Now) (up : UpstreamD) : DResp × CacheMap DRow × Bool :=
  if scheme ≠ "Bearer" ∨ token ≠ bearer then (.forbidden, cache, false)
  else
    let fr := fetch_daily cache now.epoch symbol up
    match fr.1 with
    | none => (.notFound, fr.2.1, fr.2.2)
    | some row =>
      match row.close, row.changePct with
      | some cl, some cp =>
        (.ok { symbol := symbol
               close := cl
               change_pct := cp
               trade_date := normTradeDate row.date now }, fr.2.1, fr.2.2)
      | _, _ => (.parseError, fr.2.1, fr.2.2)

/-- The `/ready` handler: it calls the snapshot endpoint and reports 503
when the call raises (with `str(e)` as the reason) or returns an empty
frame, and 200 with the current timestamp otherwise. -/
def readiness_check (up : UpstreamRT) (nowIso : String) : ReadyResp :=
  match up with
  | .raises msg => .unavailable msg
  | .rows rs => if rs.isEmpty then .unavailable "AKShare 数据源空" else .ready nowIso

/-! Concrete fixtures (rationals are written in lowest terms so that the
kernel can evaluate on them): 11.43 = 1143/100, 11.40 = 57/5,
11.5 = 23/2, 11.3 = 113/10. -/

def rPrice : Rat := ⟨1143, 100, by decide, by decide⟩

def rPreClose : Rat := ⟨57, 5, by decide, by decide⟩

def rHigh : Rat := ⟨23, 2, by decide, by decide⟩

def rLow : Rat := ⟨113, 10, by decide, by decide⟩

/-- A snapshot row for bare code `000001`. -/
def wRow : RTRow :=
  ⟨"000001", some rPrice, some rPreClose, some rHigh, some rLow, some 500000, some 5715000⟩

def wUp : UpstreamRT := .rows [wRow]

/-- Saturday 2025-10-11, 10:00:00, epoch 0. -/
def wNow : Now := ⟨2025, 10, 11, 5, 10 * 3600, 0⟩

/-- The quote `get_stock_quote` produces from `wRow` at `wNow`. -/
def wQ : StockQuote :=
  { symbol := "000001.SZ"
    price := rPrice
    currency := "CNY"
    change_percent := round2 (if rPreClose ≠ 0 then (rPrice - rPreClose) / rPreClose * 100 else 0)
    trade_date := "20251011"
    day_high := rHigh
    day_low := rLow
    volume := (500000 : Rat) / 100
    amount := (5715000 : Rat) / 1000
    warning := some "周末休市" }

/-- A daily-history row whose date is a hyphenated text date. -/
def dRow1 : DRow := ⟨.str "2025-10-10", some rPrice, some rPreClose⟩

/-! Helper lemmas. -/

lemma isDigit_digitChar (n : Nat) (h : n < 10) : (digitChar n).isDigit = true := by
  interval_cases n <;> decide

lemma digits8_fmtYMD (y m d : Nat) : digits8 (fmtYMD y m d) = true := by
  have h : ∀ k : Nat, (digitChar (k % 10)).isDigit = true :=
    fun k => isDigit_digitChar _ (Nat.mod_lt _ (by norm_num))
  simp [digits8, fmtYMD, String.length, h]

/-- Inversion for a 200 response of `get_stock_quote`: the quote's trade
date is today's date and its warning is governed by the market clock. -/
lemma get_stock_quote_ok_cases (scheme token bearer symbol : String)
    (cache : CacheMap RTRow) (now : Now) (up : UpstreamRT) (q : StockQuote)
    (c : CacheMap RTRow) (b : Bool)
    (h : get_stock_quote scheme token bearer symbol cache now up = (.ok q, c, b)) :
    q.trade_date = dateStr now ∧
    q.warning = (if (is_trading_time now).1 then none else some (is_trading_time now).2) := by
  by_cases ha : scheme ≠ "Bearer" ∨ token ≠ bearer
  · simp [get_stock_quote, ha] at h
  · simp only [get_stock_quote, if_neg ha] at h
    split at h
    · simp at h
    · split at h
      · simp only [Prod.mk.injEq, RTResp.ok.injEq] at h
        obtain ⟨hq, -⟩ := h
        subst hq
        exact ⟨rfl, rfl⟩
      · simp at h

/-- C5: the market clock checks, in order: fixed holiday set, weekend
(Saturday = 5 or Sunday = 6), then trading exactly when the time of day
lies in [09:30, 11:30] or [13:00, 15:00] (inclusive, in seconds),
otherwise "outside trading hours". -/
theorem c5_market_clock (now : Now) :
    (is_holiday (dateStr now) = true → is_trading_time now = (false, "节假日休市")) ∧
    (is_holiday (dateStr now) = false → (now.weekday = 5 ∨ now.weekday = 6) →
      is_trading_time now = (false, "周末休市")) ∧
    (is_holiday (dateStr now) = false → now.weekday ≠ 5 → now.weekday ≠ 6 →
      (((9 * 3600 + 30 * 60 ≤ now.timeSec ∧ now.timeSec ≤ 11 * 3600 + 30 * 60) ∨
          (13 * 3600 ≤ now.timeSec ∧ now.timeSec ≤ 15 * 3600)) →
        is_trading_time now = (true, "交易时间内")) ∧
      (¬ ((9 * 3600 + 30 * 60 ≤ now.timeSec ∧ now.timeSec ≤ 11 * 3600 + 30 * 60) ∨
          (13 * 3600 ≤ now.timeSec ∧ now.timeSec ≤ 15 * 3600)) →
        is_trading_time now = (false, "非交易时间"))) := by
  refine ⟨fun h => by simp [is_trading_time, h], fun h hw => ?_, fun h h5 h6 => ?_⟩
  · have h5 : 5 ≤ (now.weekday : Nat) := by
      rcases hw with hw | hw <;> rw [hw] <;> decide
    simp [is_trading_time, h, h5]
  · have hv5 : (now.weekday : Nat) ≠ 5 := fun hh => h5 (Fin.ext hh)
    have hv6 : (now.weekday : Nat) ≠ 6 := fun hh => h6 (Fin.ext hh)
    have hlt : ¬ (5 ≤ (now.weekday : Nat)) := by
      have := now.weekday.isLt
      omega
    refine ⟨fun hw => ?_, fun hw => ?_⟩
    · simp [is_trading_time, h, hlt, hw]
    · simp [is_trading_time, h, hlt, hw]

/-- C5 witness: New Year's Day 2025 (a Wednesday) at 10:00 is reported
as a holiday closure. -/
theorem c5_market_clock_witness :
    is_trading_time ⟨2025, 1, 1, 2, 10 * 3600, 0⟩ = (false, "节假日休市") :=
  (c5_market_clock ⟨2025, 1, 1, 2, 10 * 3600, 0⟩).1 (by decide)

/-- C6: a request whose scheme is not `Bearer` or whose token differs
from the configured secret gets a 403 from both data endpoints, with the
caches untouched and no upstream call made. -/
theorem c6_auth_gate (scheme token bearer symbol : String) (rc : CacheMap RTRow)
    (dc : CacheMap DRow) (now : Now) (upr : UpstreamRT) (upd : UpstreamD)
    (h : scheme ≠ "Bearer" ∨ token ≠ bearer) :
    get_stock_quote scheme token bearer symbol rc now upr = (.forbidden, rc, false) ∧
    get_daily_quote scheme token bearer symbol dc now upd = (.forbidden, dc, false) := by
  constructor
  · simp [get_stock_quote, h]
  · simp [get_daily_quote, h]

/-- C6 witness: a wrong token at a concrete request. -/
theorem c6_auth_gate_witness :
    get_stock_quote "Bearer" "wrong" "secret" "000001.SZ" [] wNow wUp =
      (.forbidden, [], false) ∧
    get_daily_quote "Bearer" "wrong" "secret" "000001.SZ" [] wNow (.hist [dRow1]) =
      (.forbidden, [], false) :=
  c6_auth_gate "Bearer" "wrong" "secret" "000001.SZ" [] [] wNow wUp (.hist [dRow1])
    (Or.inr (by decide))

/-- C7: a successful real-time quote carries the market clock's reason
as its warning exactly when the clock reports non-trading, and no
warning when it reports trading. -/
theorem c7_warning_iff_not_trading (scheme token bearer symbol : String)
    (cache : CacheMap RTRow) (now : Now) (up : UpstreamRT) (q : StockQuote)
    (c : CacheMap RTRow) (b : Bool)
    (h : get_stock_quote scheme token bearer symbol cache now up = (.ok q, c, b)) :
    (q.warning = some (is_trading_time now).2 ↔ (is_trading_time now).1 = false) ∧
    ((is_trading_time now).1 = true → q.warning = none) := by
  have hw := (get_stock_quote_ok_cases scheme token bearer symbol cache now up q c b h).2
  rw [hw]
  rcases htr : (is_trading_time now).1 <;> simp [htr]

/-- C7 witness: a concrete Saturday request returns the weekend warning. -/
theorem c7_warning_iff_not_trading_witness :
    (wQ.warning = some (is_trading_time wNow).2 ↔ (is_trading_time wNow).1 = false) ∧
    ((is_trading_time wNow).1 = true → wQ.warning = none) :=
  c7_warning_iff_not_trading "Bearer" "t" "t" "000001.SZ" [] wNow wUp wQ
    [("000001.SZ", some wRow, 0)] true rfl

/-- C10: every successful real-time quote carries the current server
date, formatted YYYYMMDD, as its trade date, whatever the upstream
snapshot contained. -/
theorem c10_trade_date_is_today (scheme token bearer symbol : String)
    (cache : CacheMap RTRow) (now : Now) (up : UpstreamRT) (q : StockQuote)
    (c : CacheMap RTRow) (b : Bool)
    (h : get_stock_quote scheme token bearer symbol cache now up = (.ok q, c, b)) :
    q.trade_date = dateStr now :=
  (get_stock_quote_ok_cases scheme token bearer symbol cache now up q c b h).1

/-- C10 witness: the concrete Saturday request's quote dates itself
2025-10-11. -/
theorem c10_trade_date_is_today_witness : wQ.trade_date = dateStr wNow :=
  c10_trade_date_is_today "Bearer" "t" "t" "000001.SZ" [] wNow wUp wQ
    [("000001.SZ", some wRow, 0)] true rfl

/-- C4: the real-time change percent is recomputed from the upstream
price and previous close as (price − prevClose)/prevClose × 100 (0 when
the previous close is zero) and rounded to two decimals; in particular
price 11.43 against previous close 11.40 gives 0.26, and a zero
previous close gives 0. -/
theorem c4_change_percent_recomputed (bearer symbol : String) (cache : CacheMap RTRow)
    (now : Now) (up : UpstreamRT) (row : RTRow) (p pc hi lo vol amt : Rat)
    (hf : (fetch_realtime cache now.epoch symbol up).1 = some row)
    (hp : row.latest = some p) (hpc : row.preClose = some pc) (hhi : row.high = some hi)
    (hlo : row.low = some lo) (hv : row.volume = some vol) (ham : row.amount = some amt) :
    (get_stock_quote "Bearer" bearer bearer symbol cache now up).1 =
      .ok { symbol := symbol
            price := p
            currency := "CNY"
            change_percent := round2 (if pc ≠ 0 then (p - pc) / pc * 100 else 0)
            trade_date := dateStr now
            day_high := hi
            day_low := lo
            volume := vol / 100
            amount := amt / 1000
            warning := if (is_trading_time now).1 then none
                       else some (is_trading_time now).2 } ∧
    round2 ((1143 / 100 - 1140 / 100 : Rat) / (1140 / 100) * 100) = 26 / 100 ∧
    round2 0 = 0 := by
  refine ⟨?_, by norm_num [round2, roundHalfEven], by norm_num [round2, roundHalfEven]⟩
  have ha : ¬ ("Bearer" ≠ "Bearer" ∨ bearer ≠ bearer) := by simp
  simp [get_stock_quote, ha, hf, hp, hpc, hhi, hlo, hv, ham]

/-- C4 witness: the concrete snapshot row evaluated end to end. -/
theorem c4_change_percent_recomputed_witness :
    (get_stock_quote "Bearer" "t" "t" "000001.SZ" [] wNow wUp).1 =
      .ok { symbol := "000001.SZ"
            price := rPrice
            currency := "CNY"
            change_percent :=
              round2 (if rPreClose ≠ 0 then (rPrice - rPreClose) / rPreClose * 100 else 0)
            trade_date := dateStr wNow
            day_high := rHigh
            day_low := rLow
            volume := (500000 : Rat) / 100
            amount := (5715000 : Rat) / 1000
            warning := if (is_trading_time wNow).1 then none
                       else some (is_trading_time wNow).2 } ∧
    round2 ((1143 / 100 - 1140 / 100 : Rat) / (1140 / 100) * 100) = 26 / 100 ∧
    round2 0 = 0 :=
  c4_change_percent_recomputed "t" "000001.SZ" [] wNow wUp wRow rPrice rPreClose rHigh rLow
    500000 5715000 rfl rfl rfl rfl rfl rfl rfl

/-- C1 counterexample: an upstream text date with `/` separators flows
into the daily quote unchanged apart from hyphen removal and the 8-cut,
so the returned trade date `"2025/10/"` is not an 8-digit numeric
string. -/
theorem c1_counterexample :
    (get_daily_quote "Bearer" "t" "t" "000001.SZ" [] wNow
        (.hist [⟨.str "2025/10/10", some rPrice, some rPreClose⟩])).1 =
      .ok ⟨"000001.SZ", rPrice, rPreClose, "2025/10/"⟩ ∧
    digits8 "2025/10/" = false :=
  ⟨rfl, by decide⟩

/-- C1 (amended): a date/time upstream value is formatted as 8-digit
YYYYMMDD; a text date has its hyphens (only) removed and its first 8
characters taken, so it is 8-digit numeric only when the text was
hyphen/digit shaped; any other value falls back to the current date in
8-digit YYYYMMDD form — and a successful daily quote's trade date is
exactly this normalization of the fetched row's date cell. -/
theorem c1_trade_date_normalization (y m d : Nat) (s : String) (now : Now) :
    normTradeDate (.ts y m d) now = fmtYMD y m d ∧
    digits8 (fmtYMD y m d) = true ∧
    normTradeDate (.str s) now = ⟨(s.data.filter (fun c => c != '-')).take 8⟩ ∧
    normTradeDate .other now = dateStr now ∧
    digits8 (dateStr now) = true ∧
    (∀ (bearer symbol : String) (cache : CacheMap DRow) (up : UpstreamD) (row : DRow)
        (cl cp : Rat),
      (fetch_daily cache now.epoch symbol up).1 = some row →
      row.close = some cl → row.changePct = some cp →
      (get_daily_quote "Bearer" bearer bearer symbol cache now up).1 =
        .ok ⟨symbol, cl, cp, normTradeDate row.date now⟩) := by
  refine ⟨rfl, digits8_fmtYMD y m d, rfl, rfl, digits8_fmtYMD now.year now.month now.day, ?_⟩
  intro bearer symbol cache up row cl cp hf hcl hcp
  have ha : ¬ ("Bearer" ≠ "Bearer" ∨ bearer ≠ bearer) := by simp
  simp [get_daily_quote, ha, hf, hcl, hcp]

/-- C1 witness: a hyphenated upstream date evaluated end to end. -/
theorem c1_trade_date_normalization_witness :
    (get_daily_quote "Bearer" "t" "t" "000001.SZ" [] wNow (.hist [dRow1])).1 =
      .ok ⟨"000001.SZ", rPrice, rPreClose, normTradeDate dRow1.date wNow⟩ :=
  (c1_trade_date_normalization 2025 10 10 "2025-10-10" wNow).2.2.2.2.2 "t" "000001.SZ" []
    (.hist [dRow1]) dRow1 rPrice rPreClose rfl rfl rfl

/-- C2 counterexample: `"000001.SZ"` and `"000001"` have the same bare
code, yet after a request for the first, a request for the second still
executes the upstream call, and the cache ends up holding two live
entries whose keys share that bare code. -/
theorem c2_counterexample :
    bare "000001.SZ" = bare "000001" ∧
    "000001.SZ" ≠ "000001" ∧
    (fetch_realtime ((fetch_realtime [] 0 "000001.SZ" wUp).2.1) 1 "000001" wUp).2.2 = true ∧
    ((fetch_realtime ((fetch_realtime [] 0 "000001.SZ" wUp).2.1) 1 "000001" wUp).2.1).map
        (fun e => bare e.1) = ["000001", "000001"] := by
  decide

/-- C2 (amended): both TTL caches are keyed by the raw input symbol, not
the bare code: a live entry is reused exactly for string-equal symbols
(within the 60 s resp. 3600 s TTL, with no upstream call), and distinct
raw symbols — even with equal bare codes — populate distinct entries. -/
theorem c2_cache_keyed_by_raw_symbol :
    (∀ (cache : CacheMap RTRow) (now : Nat) (symbol : String) (up : UpstreamRT)
        (v : Option RTRow) (t : Nat),
      lookupC cache symbol = some (v, t) → now < t + 60 →
      fetch_realtime cache now symbol up = (v, cache, false)) ∧
    (∀ (cache : CacheMap DRow) (now : Nat) (symbol : String) (up : UpstreamD)
        (v : Option DRow) (t : Nat),
      lookupC cache symbol = some (v, t) → now < t + 3600 →
      fetch_daily cache now symbol up = (v, cache, false)) ∧
    (∀ (s1 s2 : String) (v : Option RTRow) (t : Nat), s1 ≠ s2 →
      lookupC (cacheInsert ([] : CacheMap RTRow) s1 v t) s2 = none) := by
  refine ⟨?_, ?_, ?_⟩
  · intro cache now symbol up v t hl hlt
    simp [fetch_realtime, cachedFetch, hl, hlt]
  · intro cache now symbol up v t hl hlt
    simp [fetch_daily, cachedFetch, hl, hlt]
  · intro s1 s2 v t hne
    have hb : (s1 == s2) = false := beq_eq_false_iff_ne.mpr hne
    simp [lookupC, cacheInsert, List.find?, hb]

/-- C2 witness: a live entry under the raw key is served without a new
upstream call. -/
theorem c2_cache_keyed_by_raw_symbol_witness :
    fetch_realtime [("000001.SZ", some wRow, 0)] 30 "000001.SZ" wUp =
      (some wRow, [("000001.SZ", some wRow, 0)], false) :=
  c2_cache_keyed_by_raw_symbol.1 [("000001.SZ", some wRow, 0)] 30 "000001.SZ" wUp
    (some wRow) 0 rfl (by decide)

/-- C3: an upstream exception or an absent symbol makes the fetch bodies
return the `None` marker; with the marker the endpoints answer 404 (so
upstream exceptions never become 500s), and a 500 can only arise after a
row was actually fetched. -/
theorem c3_upstream_failure_becomes_404 :
    (∀ (symbol msg : String), realtimeCompute (.raises msg) symbol = none) ∧
    (∀ (symbol : String) (rs : List RTRow), (∀ r ∈ rs, r.code ≠ bare symbol) →
      realtimeCompute (.rows rs) symbol = none) ∧
    (∀ (msg : String), dailyCompute (.raises msg) = none) ∧
    dailyCompute (.hist []) = none ∧
    (∀ (bearer symbol : String) (cache : CacheMap RTRow) (now : Now) (up : UpstreamRT),
      lookupC cache symbol = none → realtimeCompute up symbol = none →
      get_stock_quote "Bearer" bearer bearer symbol cache now up =
        (.notFound, cacheInsert cache symbol none now.epoch, true)) ∧
    (∀ (bearer symbol : String) (cache : CacheMap DRow) (now : Now) (up : UpstreamD),
      lookupC cache symbol = none → dailyCompute up = none →
      get_daily_quote "Bearer" bearer bearer symbol cache now up =
        (.notFound, cacheInsert cache symbol none now.epoch, true)) ∧
    (∀ (scheme token bearer symbol : String) (cache : CacheMap RTRow) (now : Now)
        (up : UpstreamRT),
      (get_stock_quote scheme token bearer symbol cache now up).1 = .parseError →
      ((fetch_realtime cache now.epoch symbol up).1).isSome = true) ∧
    (∀ (scheme token bearer symbol : String) (cache : CacheMap DRow) (now : Now)
        (up : UpstreamD),
      (get_daily_quote scheme token bearer symbol cache now up).1 = .parseError →
      ((fetch_daily cache now.epoch symbol up).1).isSome = true) := by
  refine ⟨fun symbol msg => rfl, ?_, fun msg => rfl, rfl, ?_, ?_, ?_, ?_⟩
  · intro symbol rs h
    simp only [realtimeCompute, List.head?_eq_none_iff, List.filter_eq_nil_iff]
    intro r hr
    simpa using h r hr
  · intro bearer symbol cache now up hl hc
    have ha : ¬ ("Bearer" ≠ "Bearer" ∨ bearer ≠ bearer) := by simp
    simp [get_stock_quote, ha, fetch_realtime, cachedFetch, hl, hc]
  · intro bearer symbol cache now up hl hc
    have ha : ¬ ("Bearer" ≠ "Bearer" ∨ bearer ≠ bearer) := by simp
    simp [get_daily_quote, ha, fetch_daily, cachedFetch, hl, hc]
  · intro scheme token bearer symbol cache now up h
    by_cases ha : scheme ≠ "Bearer" ∨ token ≠ bearer
    · simp [get_stock_quote, ha] at h
    · rcases hf : (fetch_realtime cache now.epoch symbol up).1 with _ | row
      · exfalso
        simp [get_stock_quote, ha, hf] at h
      · simp [hf]
  · intro scheme token bearer symbol cache now up h
    by_cases ha : scheme ≠ "Bearer" ∨ token ≠ bearer
    · simp [get_daily_quote, ha] at h
    · rcases hf : (fetch_daily cache now.epoch symbol up).1 with _ | row
      · exfalso
        simp [get_daily_quote, ha, hf] at h
      · simp [hf]

/-- C3 witness: a raising upstream call yields a 404 and a cached
`None`. -/
theorem c3_upstream_failure_becomes_404_witness :
    get_stock_quote "Bearer" "t" "t" "000001.SZ" [] wNow (.raises "boom") =
      (.notFound, cacheInsert [] "000001.SZ" none wNow.epoch, true) :=
  c3_upstream_failure_becomes_404.2.2.2.2.1 "t" "000001.SZ" [] wNow (.raises "boom") rfl rfl

/-- C8: readiness reports 503 with a reason exactly when the snapshot
call raises or returns no rows; otherwise it reports ready with the
current timestamp. -/
theorem c8_readiness (up : UpstreamRT) (iso msg : String) (rs : List RTRow) :
    readiness_check (.raises msg) iso = .unavailable msg ∧
    readiness_check (.rows []) iso = .unavailable "AKShare 数据源空" ∧
    (rs ≠ [] → readiness_check (.rows rs) iso = .ready iso) ∧
    (∀ r : String, readiness_check up iso = .unavailable r →
      (∃ m, up = .raises m) ∨ up = .rows []) := by
  refine ⟨rfl, rfl, fun h => by simp [readiness_check, h], fun r h => ?_⟩
  cases up with
  | raises m => exact Or.inl ⟨m, rfl⟩
  | rows rs2 =>
    right
    by_cases he : rs2 = []
    · rw [he]
    · exfalso
      simp [readiness_check, he] at h

/-- C8 witness: a nonempty snapshot makes readiness report ready. -/
theorem c8_readiness_witness :
    readiness_check (.rows [wRow]) "2025-10-11T10:00:00" = .ready "2025-10-11T10:00:00" :=
  (c8_readiness (.rows [wRow]) "2025-10-11T10:00:00" "m" [wRow]).2.2.1 (by simp)

/-- C9: a fetch that produced the `None` marker stores it in the TTL
cache under the request's key, and while that entry is live every later
request for the same key answers 404 without a new upstream call — for
both the real-time (60 s) and the daily (3600 s) path. -/
theorem c9_negative_caching :
    (∀ (bearer symbol : String) (cache : CacheMap RTRow) (now : Now) (up : UpstreamRT),
      lookupC cache symbol = none → realtimeCompute up symbol = none →
      get_stock_quote "Bearer" bearer bearer symbol cache now up =
        (.notFound, cacheInsert cache symbol none now.epoch, true)) ∧
    (∀ (bearer symbol : String) (cache : CacheMap RTRow) (now : Now) (up : UpstreamRT)
        (t : Nat),
      lookupC cache symbol = some (none, t) → now.epoch < t + 60 →
      get_stock_quote "Bearer" bearer bearer symbol cache now up =
        (.notFound, cache, false)) ∧
    (∀ (bearer symbol : String) (cache : CacheMap DRow) (now : Now) (up : UpstreamD),
      lookupC cache symbol = none → dailyCompute up = none →
      get_daily_quote "Bearer" bearer bearer symbol cache now up =
        (.notFound, cacheInsert cache symbol none now.epoch, true)) ∧
    (∀ (bearer symbol : String) (cache : CacheMap DRow) (now : Now) (up : UpstreamD)
        (t : Nat),
      lookupC cache symbol = some (none, t) → now.epoch < t + 3600 →
      get_daily_quote "Bearer" bearer bearer symbol cache now up =
        (.notFound, cache, false)) := by
  refine ⟨?_, ?_, ?_, ?_⟩
  · intro bearer symbol cache now up hl hc
    have ha : ¬ ("Bearer" ≠ "Bearer" ∨ bearer ≠ bearer) := by simp
    simp [get_stock_quote, ha, fetch_realtime, cachedFetch, hl, hc]
  · intro bearer symbol cache now up t hl hlt
    have ha : ¬ ("Bearer" ≠ "Bearer" ∨ bearer ≠ bearer) := by simp
    simp [get_stock_quote, ha, fetch_realtime, cachedFetch, hl, hlt]
  · intro bearer symbol cache now up hl hc
    have ha : ¬ ("Bearer" ≠ "Bearer" ∨ bearer ≠ bearer) := by simp
    simp [get_daily_quote, ha, fetch_daily, cachedFetch, hl, hc]
  · intro bearer symbol cache now up t hl hlt
    have ha : ¬ ("Bearer" ≠ "Bearer" ∨ bearer ≠ bearer) := by simp
    simp [get_daily_quote, ha, fetch_daily, cachedFetch, hl, hlt]

/-- C9 witness: a cached `None` under the key answers 404 with no
upstream call while still live. -/
theorem c9_negative_caching_witness :
    get_stock_quote "Bearer" "t" "t" "000001.SZ" [("000001.SZ", none, 0)]
        ⟨2025, 10, 11, 5, 10 * 3600, 30⟩ wUp =
      (.notFound, [("000001.SZ", none, 0)], false) :=
  c9_negative_caching.2.1 "t" "000001.SZ" [("000001.SZ", none, 0)]
    ⟨2025, 10, 11, 5, 10 * 3600, 30⟩ wUp 0 rfl (by decide)

end AkApi
